import Mathlib

/-!
Verification development for the product content generation pipeline
(agents, content blocks, template engine, workflow state).  Python
functions from the repository are shallowly embedded as Lean functions;
machine floats over whole-valued currency amounts are modelled as
naturals, Python dicts with known key sets as structures or association
lists, and raised exceptions as Except results.
-/

namespace ProductPipeline

/-! ## String helpers mirroring the Python primitives used by the source -/

/-- Python str.lower, character by character. -/
def lowerStr (s : String) : String := String.mk (s.toList.map Char.toLower)

/-- Does the first character list start with the second? -/
def startsWithChars : List Char → List Char → Bool
  | _, [] => true
  | [], _ :: _ => false
  | a :: as, b :: bs => a == b && startsWithChars as bs

/-- Does the pattern occur as a contiguous run inside the character list? -/
def occursIn (w : List Char) : List Char → Bool
  | [] => w.isEmpty
  | c :: rest => startsWithChars (c :: rest) w || occursIn w rest

/-- Python substring test (w in s). -/
def containsSub (s w : String) : Bool := occursIn w.toList s.toList

/-- First maximal run of digit characters, if any (re.findall digit runs, item 0). -/
def digitRunAux : List Char → Option (List Char)
  | [] => none
  | c :: cs =>
    if c.isDigit then some (c :: cs.takeWhile Char.isDigit) else digitRunAux cs

/-- Decimal value of a digit run. -/
def digitsToNat (cs : List Char) : Nat :=
  cs.foldl (fun acc c => acc * 10 + (c.toNat - 48)) 0

/-- Python s.replace(",", ""). -/
def stripCommas (s : String) : String :=
  String.mk (s.toList.filter (fun c => c != ','))

/-- First run of digits of price.replace(",", ""), as a number
(re.findall over digits, first element, numeric value); none when the
regex finds nothing and indexing raises. -/
def extractFirstNumber (s : String) : Option Nat :=
  (digitRunAux (stripCommas s).toList).map digitsToNat

/-! ## content_blocks/ingredients_block.py: compare_ingredients -/

/-- Result dictionary of compare_ingredients. -/
structure IngredientsComparison where
  common_ingredients : List String
  unique_to_product1 : List String
  unique_to_product2 : List String
  similarity_score : ℚ
  deriving DecidableEq, Repr

/-- compare_ingredients from src/content_blocks/ingredients_block.py.
Python set intersection and difference are modelled as
first-occurrence-order deduplicated filters; the score divides by the
maximum of the two input list lengths and 1 and scales by 100. -/
def compare_ingredients (p1 p2 : List String) : IngredientsComparison :=
  let common := p1.dedup.filter (fun x => decide (x ∈ p2))
  { common_ingredients := common
    unique_to_product1 := p1.dedup.filter (fun x => decide (x ∉ p2))
    unique_to_product2 := p2.dedup.filter (fun x => decide (x ∉ p1))
    similarity_score :=
      (common.length : ℚ) / ((max (max p1.length p2.length) 1 : Nat) : ℚ) * 100 }

/-! ## templates/template_engine.py: price difference helper -/

/-- The literal currency marker prefixed to a computed price difference
(the source file carries these three mojibake characters). -/
def rupeeMark : String := "â‚¹"

/-- The calculate price difference helper from
src/templates/template_engine.py: extract the first digit run of each
comma-stripped price string; on success return the marked absolute
difference, on any failure return the empty string. -/
def calculatePriceDifference (p1 p2 : String) : String :=
  match extractFirstNumber p1, extractFirstNumber p2 with
  | some n1, some n2 => rupeeMark ++ toString (max n1 n2 - min n1 n2)
  | _, _ => ""

/-- The generate recommendation helper from
src/templates/template_engine.py. -/
def generateRecommendation (similarity : ℚ) : String :=
  if similarity > 70 then
    "Both products are similar. Choose based on price and specific needs."
  else
    "Products differ significantly. Consider your specific skin concerns and budget."

/-! ## Typed views of the Python dictionaries flowing through the templates -/

/-- Option value with a Python .get default. -/
def optD {α : Type} (o : Option α) (d : α) : α := o.getD d

/-- Python truthiness of an optional string (absent, None and the empty
string are falsy). -/
def truthyStr (o : Option String) : Bool :=
  match o with
  | none => false
  | some s => s != ""

/-- A question dictionary as consumed by the FAQ template. -/
structure QA where
  question : Option String
  answer : Option String
  category : Option String
  deriving DecidableEq, Repr

/-- A product-data dictionary with the keys the templates read. -/
structure ProductDict where
  product_name : Option String
  concentration : Option String
  skin_type : Option (List String)
  key_ingredients : Option (List String)
  benefits : Option (List String)
  how_to_use : Option String
  side_effects : Option String
  price : Option String
  deriving DecidableEq, Repr

/-- A product dictionary with no keys (Python literal of two braces). -/
def emptyProductDict : ProductDict :=
  { product_name := none, concentration := none, skin_type := none
    key_ingredients := none, benefits := none, how_to_use := none
    side_effects := none, price := none }

/-- Benefits content block: the fields the description template reads. -/
structure BenefitsBlock where
  primary_benefits : Option (List String)
  formatted_benefits : Option (List String)
  deriving DecidableEq, Repr

/-- Usage content block: the fields the description template reads. -/
structure UsageBlock where
  instructions : Option String
  steps : Option (List String)
  frequency : Option String
  application_tips : Option (List String)
  deriving DecidableEq, Repr

/-- One ingredient-details entry as produced by the ingredients block. -/
structure IngredientDetail where
  type : String
  benefits : List String
  concentration : String
  description : String
  deriving DecidableEq, Repr

/-- Ingredients content block: the fields the description template reads. -/
structure IngredientsBlock where
  key_ingredients : Option (List String)
  ingredient_details : Option (List (String × IngredientDetail))
  concentration : Option String
  deriving DecidableEq, Repr

/-- Safety content block: the fields the description template reads. -/
structure SafetyBlock where
  side_effects : Option String
  warnings : Option (List String)
  safety_notes : Option (List String)
  deriving DecidableEq, Repr

/-- Ingredients-comparison block dictionary as read by the comparison
template (the merged compare output). -/
structure ComparisonBlock where
  common_ingredients : Option (List String)
  unique_to_product1 : Option (List String)
  unique_to_product2 : Option (List String)
  similarity_score : Option ℚ
  deriving DecidableEq, Repr

/-- The content_blocks dictionary argument of the templates. -/
structure ContentBlocks where
  benefits : Option BenefitsBlock
  usage : Option UsageBlock
  ingredients : Option IngredientsBlock
  safety : Option SafetyBlock
  ingredients_comparison : Option ComparisonBlock
  deriving DecidableEq, Repr

def emptyBenefitsBlock : BenefitsBlock := { primary_benefits := none, formatted_benefits := none }

def emptyUsageBlock : UsageBlock :=
  { instructions := none, steps := none, frequency := none, application_tips := none }

def emptyIngredientsBlock : IngredientsBlock :=
  { key_ingredients := none, ingredient_details := none, concentration := none }

def emptySafetyBlock : SafetyBlock :=
  { side_effects := none, warnings := none, safety_notes := none }

def emptyComparisonBlock : ComparisonBlock :=
  { common_ingredients := none, unique_to_product1 := none
    unique_to_product2 := none, similarity_score := none }

/-! ## tools/product_tools.py: categorize_question -/

/-- Safety-related keywords of categorize_question. -/
def safetyKeywords : List String :=
  ["side effect", "safe", "irritat", "sensitive", "warning", "risk"]

/-- Usage-related keywords of categorize_question. -/
def usageKeywords : List String :=
  ["how to use", "apply", "frequency", "when", "how often", "steps"]

/-- Purchase-related keywords of categorize_question. -/
def purchaseKeywords : List String :=
  ["price", "cost", "buy", "purchase", "where to buy", "available"]

/-- Comparison-related keywords of categorize_question. -/
def comparisonKeywords : List String :=
  ["compare", "vs", "versus", "better than", "difference", "alternative"]

/-- categorize_question from src/tools/product_tools.py: ordered keyword
cascade over the lowercased question text; the product-data argument is
accepted but never read by the source. -/
def categorize_question (question_text : String) (product_data : ProductDict) : String :=
  let q := lowerStr question_text
  if safetyKeywords.any (containsSub q) then "Safety"
  else if usageKeywords.any (containsSub q) then "Usage"
  else if purchaseKeywords.any (containsSub q) then "Purchase"
  else if comparisonKeywords.any (containsSub q) then "Comparison"
  else "Informational"

/-- The spec-side form of category inference: an ordered cascade over
(keyword set, category) pairs falling through to a baseline category. -/
def keywordCascade (rules : List (List String × String)) (dflt : String) (q : String) : String :=
  match rules with
  | [] => dflt
  | (kws, cat) :: rest =>
    if kws.any (containsSub q) then cat else keywordCascade rest dflt q

/-! ## templates/template_engine.py: the three templates -/

/-- Safety-related keywords of the FAQ template inference. -/
def faqSafetyKeywords : List String := ["safe", "side effect", "irritat"]

/-- Usage-related keywords of the FAQ template inference. -/
def faqUsageKeywords : List String := ["how to", "use", "apply"]

/-- Purchase-related keywords of the FAQ template inference. -/
def faqPurchaseKeywords : List String := ["price", "cost", "buy"]

/-- Comparison-related keywords of the FAQ template inference. -/
def faqComparisonKeywords : List String := ["compare", "vs", "versus"]

/-- Category inference inside FAQTemplate.apply for a question carrying
no truthy category. -/
def faqInferCategory (question_text : String) : String :=
  let q := lowerStr question_text
  if faqSafetyKeywords.any (containsSub q) then "Safety"
  else if faqUsageKeywords.any (containsSub q) then "Usage"
  else if faqPurchaseKeywords.any (containsSub q) then "Purchase"
  else if faqComparisonKeywords.any (containsSub q) then "Comparison"
  else "Informational"

/-- One faq_items entry. -/
structure FAQItem where
  question : String
  answer : String
  category : String
  deriving DecidableEq, Repr

/-- The FAQ page dictionary produced by FAQTemplate.apply. -/
structure FAQPage where
  page_type : String
  product_name : String
  faq_items : List FAQItem
  total_questions : Nat
  categories : List String
  deriving DecidableEq, Repr

/-- The faq_items entry built from one question dictionary. -/
def faqItemOfQA (qa : QA) : FAQItem :=
  let category :=
    if truthyStr qa.category then optD qa.category ""
    else faqInferCategory (optD qa.question "")
  { question := optD qa.question ""
    answer := optD qa.answer ""
    category := category }

/-- FAQTemplate.apply from src/templates/template_engine.py.  The
categories field collapses Python set iteration to first-occurrence
order via dedup. -/
def FAQTemplate_apply (questions : List QA) (product_data : ProductDict) : FAQPage :=
  let faq_items := (questions.take 5).map faqItemOfQA
  { page_type := "faq"
    product_name := optD product_data.product_name ""
    faq_items := faq_items
    total_questions := faq_items.length
    categories := (faq_items.map (fun i => i.category)).dedup }

/-- Sections of the product description page. -/
structure OverviewSection where
  description : String
  key_highlights : List String
  deriving DecidableEq, Repr

structure IngredientsSection where
  key_ingredients : List String
  ingredient_details : List (String × IngredientDetail)
  concentration : String
  deriving DecidableEq, Repr

structure BenefitsSection where
  primary_benefits : List String
  formatted_benefits : List String
  deriving DecidableEq, Repr

structure UsageSection where
  instructions : String
  steps : List String
  frequency : String
  tips : List String
  deriving DecidableEq, Repr

structure SafetySection where
  side_effects : String
  warnings : List String
  precautions : List String
  deriving DecidableEq, Repr

structure SkinTypeSection where
  suitable_for : List String
  deriving DecidableEq, Repr

structure DescriptionSections where
  overview : OverviewSection
  ingredients : IngredientsSection
  benefits : BenefitsSection
  usage : UsageSection
  safety : SafetySection
  skin_type : SkinTypeSection
  deriving DecidableEq, Repr

/-- The product description page dictionary. -/
structure DescriptionPage where
  page_type : String
  product_name : String
  price : String
  concentration : String
  sections : DescriptionSections
  deriving DecidableEq, Repr

/-- ProductDescriptionTemplate.apply from src/templates/template_engine.py. -/
def ProductDescriptionTemplate_apply (product_data : ProductDict) (cb : ContentBlocks) :
    DescriptionPage :=
  let benefits := optD cb.benefits emptyBenefitsBlock
  let usage := optD cb.usage emptyUsageBlock
  let ingredients := optD cb.ingredients emptyIngredientsBlock
  let safety := optD cb.safety emptySafetyBlock
  { page_type := "product_description"
    product_name := optD product_data.product_name ""
    price := optD product_data.price ""
    concentration := optD product_data.concentration ""
    sections :=
      { overview :=
          { description :=
              optD product_data.product_name "" ++ " - " ++ optD product_data.concentration ""
            key_highlights := optD product_data.benefits [] }
        ingredients :=
          { key_ingredients := optD ingredients.key_ingredients []
            ingredient_details := optD ingredients.ingredient_details []
            concentration := optD ingredients.concentration "" }
        benefits :=
          { primary_benefits := optD benefits.primary_benefits []
            formatted_benefits := optD benefits.formatted_benefits [] }
        usage :=
          { instructions := optD usage.instructions ""
            steps := optD usage.steps []
            frequency := optD usage.frequency ""
            tips := optD usage.application_tips [] }
        safety :=
          { side_effects := optD safety.side_effects ""
            warnings := optD safety.warnings []
            precautions := optD safety.safety_notes [] }
        skin_type := { suitable_for := optD product_data.skin_type [] } } }

/-- One product entry of the comparison page. -/
structure ComparisonProductEntry where
  name : String
  price : String
  concentration : String
  key_ingredients : List String
  benefits : List String
  skin_type : List String
  deriving DecidableEq, Repr

structure ComparisonIngredientsPart where
  common : List String
  unique_to_product1 : List String
  unique_to_product2 : List String
  similarity_score : ℚ
  deriving DecidableEq, Repr

structure ComparisonPricePart where
  product1_price : String
  product2_price : String
  price_difference : String
  deriving DecidableEq, Repr

structure ComparisonBenefitsPart where
  product1_benefits : List String
  product2_benefits : List String
  shared_benefits : List String
  deriving DecidableEq, Repr

structure ComparisonSection where
  ingredients : ComparisonIngredientsPart
  price : ComparisonPricePart
  benefits : ComparisonBenefitsPart
  deriving DecidableEq, Repr

/-- The comparison page dictionary. -/
structure ComparisonPage where
  page_type : String
  product1 : ComparisonProductEntry
  product2 : ComparisonProductEntry
  comparison : ComparisonSection
  recommendation : String
  deriving DecidableEq, Repr

/-- Product entry extraction used twice by the comparison template. -/
def comparisonEntryOf (p : ProductDict) : ComparisonProductEntry :=
  { name := optD p.product_name ""
    price := optD p.price ""
    concentration := optD p.concentration ""
    key_ingredients := optD p.key_ingredients []
    benefits := optD p.benefits []
    skin_type := optD p.skin_type [] }

/-- ComparisonTemplate.apply from src/templates/template_engine.py.
Python set intersection over benefits is modelled as a deduplicated
membership filter. -/
def ComparisonTemplate_apply (product1 product2 : ProductDict) (cb : ContentBlocks) :
    ComparisonPage :=
  let comparison := optD cb.ingredients_comparison emptyComparisonBlock
  { page_type := "comparison"
    product1 := comparisonEntryOf product1
    product2 := comparisonEntryOf product2
    comparison :=
      { ingredients :=
          { common := optD comparison.common_ingredients []
            unique_to_product1 := optD comparison.unique_to_product1 []
            unique_to_product2 := optD comparison.unique_to_product2 []
            similarity_score := optD comparison.similarity_score 0 }
        price :=
          { product1_price := optD product1.price ""
            product2_price := optD product2.price ""
            price_difference :=
              calculatePriceDifference (optD product1.price "") (optD product2.price "") }
        benefits :=
          { product1_benefits := optD product1.benefits []
            product2_benefits := optD product2.benefits []
            shared_benefits :=
              (optD product1.benefits []).dedup.filter
                (fun b => decide (b ∈ optD product2.benefits [])) } }
    recommendation := generateRecommendation (optD comparison.similarity_score 0) }

/-! ## templates/template_engine.py: TemplateEngine.apply_template -/

/-- The data dictionary handed to TemplateEngine.apply_template, with
one optional slot per key any template declares or reads. -/
structure TemplateData where
  questions : Option (List QA)
  product_data : Option ProductDict
  benefits_content : Option BenefitsBlock
  usage_content : Option UsageBlock
  ingredients_content : Option IngredientsBlock
  safety_content : Option SafetyBlock
  product1_data : Option ProductDict
  product2_data : Option ProductDict
  deriving DecidableEq, Repr

/-- Result of applying a named template. -/
inductive PageResult where
  | faqPage (p : FAQPage)
  | descriptionPage (p : DescriptionPage)
  | comparisonPage (p : ComparisonPage)
  deriving DecidableEq, Repr

/-- get_fields of each registered template. -/
def templateRequiredFields (name : String) : List String :=
  if name = "faq" then ["questions", "product_data"]
  else if name = "product_description" then
    ["product_data", "benefits_content", "usage_content", "ingredients_content", "safety_content"]
  else ["product1_data", "product2_data"]

/-- Python key-presence test (field in data) over the typed data record. -/
def dataHasField (d : TemplateData) (f : String) : Bool :=
  if f = "questions" then d.questions.isSome
  else if f = "product_data" then d.product_data.isSome
  else if f = "benefits_content" then d.benefits_content.isSome
  else if f = "usage_content" then d.usage_content.isSome
  else if f = "ingredients_content" then d.ingredients_content.isSome
  else if f = "safety_content" then d.safety_content.isSome
  else if f = "product1_data" then d.product1_data.isSome
  else if f = "product2_data" then d.product2_data.isSome
  else false

/-- TemplateEngine.apply_template from src/templates/template_engine.py:
unknown template names and missing required fields raise ValueError
(modelled as Except.error); otherwise the selected template is applied. -/
def apply_template (name : String) (data : TemplateData) (cb : ContentBlocks) :
    Except String PageResult :=
  if name ≠ "faq" ∧ name ≠ "product_description" ∧ name ≠ "comparison" then
    Except.error ("Unknown template: " ++ name)
  else
    let missing := (templateRequiredFields name).filter (fun f => !(dataHasField data f))
    if missing ≠ [] then
      Except.error ("Missing required fields: " ++ String.intercalate ", " missing)
    else if name = "faq" then
      Except.ok (PageResult.faqPage
        (FAQTemplate_apply (optD data.questions []) (optD data.product_data emptyProductDict)))
    else if name = "product_description" then
      Except.ok (PageResult.descriptionPage
        (ProductDescriptionTemplate_apply (optD data.product_data emptyProductDict) cb))
    else
      Except.ok (PageResult.comparisonPage
        (ComparisonTemplate_apply (optD data.product1_data emptyProductDict)
          (optD data.product2_data emptyProductDict) cb))

/-! ## Loosely typed dictionaries for the agent-level JSON handling -/

/-- A JSON field value as the parser and product-B flows see it:
a string, a list of strings, or null. -/
inductive FieldVal where
  | str (s : String)
  | list (xs : List String)
  | null
  deriving DecidableEq, Repr

/-- A parsed JSON object, keys in insertion order. -/
abbrev PDict := List (String × FieldVal)

/-- Python dict lookup (data.get(k)). -/
def pLookup (d : PDict) (k : String) : Option FieldVal :=
  (d.find? (fun kv => kv.1 == k)).map (fun kv => kv.2)

/-- Python key-presence test (k in data). -/
def pHasKey (d : PDict) (k : String) : Bool := (pLookup d k).isSome

/-- Python dict assignment: replace in place or append a new key. -/
def pSet (d : PDict) (k : String) (v : FieldVal) : PDict :=
  if pHasKey d k then d.map (fun kv => if kv.1 == k then (k, v) else kv)
  else d ++ [(k, v)]

/-- Python truthiness of a looked-up value. -/
def fieldTruthy : Option FieldVal → Bool
  | none => false
  | some FieldVal.null => false
  | some (FieldVal.str s) => s != ""
  | some (FieldVal.list xs) => !xs.isEmpty

/-- The seven required product fields shared by the parser and the
product-B validation. -/
def requiredProductFields : List String :=
  ["product_name", "concentration", "skin_type",
   "key_ingredients", "benefits", "how_to_use", "price"]

/-- Critical fields of the product-B fix branch. -/
def criticalFields : List String :=
  ["product_name", "key_ingredients", "benefits", "price"]

/-- Validation result dictionary shared by the validation tools. -/
structure StructValidation where
  valid : Bool
  missing_fields : List String
  deriving DecidableEq, Repr

/-- validate_product_structure from src/tools/product_tools.py: a field
is missing when its key is absent. -/
def validate_product_structure (product : PDict) : StructValidation :=
  let missing := requiredProductFields.filter (fun f => !(pHasKey product f))
  { valid := missing.isEmpty, missing_fields := missing }

/-- validate_data_structure from src/tools/product_tools.py: a field is
missing when its key is absent or its value is None. -/
def validate_data_structure (d : PDict) (required_fields : List String) : StructValidation :=
  let missing := required_fields.filter (fun f =>
    match pLookup d f with
    | none => true
    | some FieldVal.null => true
    | some _ => false)
  { valid := missing.isEmpty, missing_fields := missing }

/-! ## models/product_model.py: the pydantic Product model -/

/-- The Product model: all eight fields are required and typed. -/
structure Product where
  product_name : String
  concentration : String
  skin_type : List String
  key_ingredients : List String
  benefits : List String
  how_to_use : String
  side_effects : String
  price : String
  deriving DecidableEq, Repr

/-- Read a string-typed model field. -/
def asStr : Option FieldVal → Option String
  | some (FieldVal.str s) => some s
  | _ => none

/-- Read a string-list-typed model field. -/
def asStrList : Option FieldVal → Option (List String)
  | some (FieldVal.list xs) => some xs
  | _ => none

/-- Pydantic construction Product(**d): succeeds exactly when every
field is present with the declared type (extra keys are ignored). -/
def productOfDict (d : PDict) : Option Product := do
  let product_name ← asStr (pLookup d "product_name")
  let concentration ← asStr (pLookup d "concentration")
  let skin_type ← asStrList (pLookup d "skin_type")
  let key_ingredients ← asStrList (pLookup d "key_ingredients")
  let benefits ← asStrList (pLookup d "benefits")
  let how_to_use ← asStr (pLookup d "how_to_use")
  let side_effects ← asStr (pLookup d "side_effects")
  let price ← asStr (pLookup d "price")
  pure { product_name, concentration, skin_type, key_ingredients,
         benefits, how_to_use, side_effects, price }

/-- Product.model_dump back to a dictionary. -/
def productToDict (p : Product) : PDict :=
  [("product_name", FieldVal.str p.product_name),
   ("concentration", FieldVal.str p.concentration),
   ("skin_type", FieldVal.list p.skin_type),
   ("key_ingredients", FieldVal.list p.key_ingredients),
   ("benefits", FieldVal.list p.benefits),
   ("how_to_use", FieldVal.str p.how_to_use),
   ("side_effects", FieldVal.str p.side_effects),
   ("price", FieldVal.str p.price)]

/-! ## agents/data_parser_agent.py: DataParserAgent.parse_product_data

The generative backend is modelled by the parse outcome of each of its
text responses: some dictionary when json.loads succeeds on the
(markdown-stripped) text, none when it raises. -/

/-- Backend responses consumed by parse_product_data: the agent-reasoning
response and the last-resort fix response. -/
structure BackendParser where
  llmParse : Option PDict
  fixParse : Option PDict
  deriving DecidableEq, Repr

/-- Outcome of one extraction flow together with its resource counters:
how many backend responses were parsed and how many extra repair calls
were issued after the initial one. -/
structure ExtractionOutcome (α : Type) where
  result : Except String α
  parseAttempts : Nat
  repairCalls : Nat
  deriving Repr

/-- parse_product_data from src/agents/data_parser_agent.py: direct
pydantic parse when the input validates; otherwise one agent-reasoning
backend call whose response is parsed, and on failure one last-resort
fix call whose response is parsed unprotected (a second failure
raises). -/
def parse_product_data (raw : PDict) (backend : BackendParser) : ExtractionOutcome Product :=
  let fixPath : ExtractionOutcome Product :=
    match backend.fixParse with
    | some d2 =>
      match productOfDict d2 with
      | some p => { result := Except.ok p, parseAttempts := 2, repairCalls := 1 }
      | none => { result := Except.error "pydantic validation error for Product",
                  parseAttempts := 2, repairCalls := 1 }
    | none => { result := Except.error "json.loads: invalid JSON",
                parseAttempts := 2, repairCalls := 1 }
  let llmPath : ExtractionOutcome Product :=
    match backend.llmParse with
    | some d =>
      match productOfDict d with
      | some p => { result := Except.ok p, parseAttempts := 1, repairCalls := 0 }
      | none => fixPath
    | none => fixPath
  let validation := validate_data_structure raw requiredProductFields
  if validation.valid then
    match productOfDict raw with
    | some p => { result := Except.ok p, parseAttempts := 0, repairCalls := 0 }
    | none => llmPath
  else llmPath

/-! ## agents/comparison_generator_agent.py -/

/-- Backend responses consumed by generate_fictional_product_b: the
initial generation response, the JSON retry response, and the
missing-critical-fields fix response, each as its parse outcome. -/
structure BackendB where
  firstParse : Option PDict
  retryParse : Option PDict
  fixParse : Option PDict
  deriving DecidableEq, Repr

/-- Type coercion at the end of generate_fictional_product_b: wrap a
truthy non-list value in a one-element list, otherwise store an empty
list. -/
def coerceListField (d : PDict) (k : String) : PDict :=
  match pLookup d k with
  | some (FieldVal.list _) => d
  | some (FieldVal.str s) =>
    if s != "" then pSet d k (FieldVal.list [s]) else pSet d k (FieldVal.list [])
  | _ => pSet d k (FieldVal.list [])

/-- Tail of generate_fictional_product_b after a product dictionary has
been obtained: required-field check (raising on the first missing
field), tool validation with the critical-fields fix branch, type
coercion, and final tool validation. -/
def genBFinish (pb : PDict) (attempts repairs : Nat) (fixO : Option PDict) :
    ExtractionOutcome PDict :=
  match requiredProductFields.find? (fun f => !(pHasKey pb f)) with
  | some f =>
    { result := Except.error ("Missing required field in Product B: " ++ f)
      parseAttempts := attempts, repairCalls := repairs }
  | none =>
    let validation := validate_product_structure pb
    let missing_critical := validation.missing_fields.filter (fun f => decide (f ∈ criticalFields))
    let afterFix : ExtractionOutcome PDict :=
      if !validation.valid && !missing_critical.isEmpty then
        match fixO with
        | some pb2 => { result := Except.ok pb2, parseAttempts := attempts + 1
                        repairCalls := repairs + 1 }
        | none => { result := Except.error
                      ("Could not generate valid Product B. Missing: "
                        ++ String.intercalate ", " missing_critical)
                    parseAttempts := attempts + 1, repairCalls := repairs + 1 }
      else { result := Except.ok pb, parseAttempts := attempts, repairCalls := repairs }
    match afterFix.result with
    | Except.error e =>
      { result := Except.error e, parseAttempts := afterFix.parseAttempts
        repairCalls := afterFix.repairCalls }
    | Except.ok pb1 =>
      let pb2 := coerceListField (coerceListField (coerceListField pb1 "skin_type")
        "key_ingredients") "benefits"
      let final_validation := validate_product_structure pb2
      if final_validation.valid then
        { result := Except.ok pb2, parseAttempts := afterFix.parseAttempts
          repairCalls := afterFix.repairCalls }
      else
        { result := Except.error ("Product B validation failed: "
            ++ String.intercalate ", " final_validation.missing_fields)
          parseAttempts := afterFix.parseAttempts, repairCalls := afterFix.repairCalls }

/-- generate_fictional_product_b from
src/agents/comparison_generator_agent.py: parse the initial response;
on failure issue one retry call and parse its response unprotected
(a second failure raises JSONDecodeError); then run the required-field
and validation tail. -/
def generate_fictional_product_b (backend : BackendB) : ExtractionOutcome PDict :=
  match backend.firstParse with
  | some pb => genBFinish pb 1 0 backend.fixParse
  | none =>
    match backend.retryParse with
    | none => { result := Except.error "json.loads: invalid JSON"
                parseAttempts := 2, repairCalls := 1 }
    | some pb => genBFinish pb 2 1 backend.fixParse

/-- A product dictionary coerced to the typed view the templates read
(string slots default through absence, list slots likewise). -/
def productDictOfPDict (d : PDict) : ProductDict :=
  { product_name := asStr (pLookup d "product_name")
    concentration := asStr (pLookup d "concentration")
    skin_type := asStrList (pLookup d "skin_type")
    key_ingredients := asStrList (pLookup d "key_ingredients")
    benefits := asStrList (pLookup d "benefits")
    how_to_use := asStr (pLookup d "how_to_use")
    side_effects := asStr (pLookup d "side_effects")
    price := asStr (pLookup d "price") }

/-- The content_blocks dictionary with no keys. -/
def emptyContentBlocks : ContentBlocks :=
  { benefits := none, usage := none, ingredients := none, safety := none
    ingredients_comparison := none }

/-- generate_comparison_page from
src/agents/comparison_generator_agent.py: run compare_ingredients on the
two ingredient lists and hand the merged comparison dictionary to the
comparison template (the compare_products tool merge adds only keys the
template never reads). -/
def generate_comparison_page (product_a product_b : PDict) : Except String PageResult :=
  let ic := compare_ingredients
    (optD (asStrList (pLookup product_a "key_ingredients")) [])
    (optD (asStrList (pLookup product_b "key_ingredients")) [])
  apply_template "comparison"
    { questions := none, product_data := none, benefits_content := none
      usage_content := none, ingredients_content := none, safety_content := none
      product1_data := some (productDictOfPDict product_a)
      product2_data := some (productDictOfPDict product_b) }
    { emptyContentBlocks with
      ingredients_comparison := some
        { common_ingredients := some ic.common_ingredients
          unique_to_product1 := some ic.unique_to_product1
          unique_to_product2 := some ic.unique_to_product2
          similarity_score := some ic.similarity_score } }

/-! ## state/product_state_schema.py and the LangGraph merge -/

/-- The shared workflow state (ProductState TypedDict), one slot per
schema key. -/
structure ProductState where
  raw_product_data : Option PDict
  parsed_product : Option PDict
  product : Option Product
  data_parsed : Bool
  content_blocks : Option ContentBlocks
  content_blocks_generated : Bool
  questions : Option (List QA)
  questions_generated : Bool
  question_count : Nat
  categories : Option (List String)
  faq_page : Option FAQPage
  faq_generated : Bool
  product_page : Option DescriptionPage
  product_page_generated : Bool
  comparison_page : Option ComparisonPage
  product_b_data : Option PDict
  comparison_generated : Bool
  files_created : Option (List (String × String))
  output_directory : Option String
  json_output_complete : Bool
  errors : List String
  deriving DecidableEq, Repr

/-- The slot names of the ProductState schema. -/
def productStateKeys : List String :=
  ["raw_product_data", "parsed_product", "product", "data_parsed",
   "content_blocks", "content_blocks_generated",
   "questions", "questions_generated", "question_count", "categories",
   "faq_page", "faq_generated", "product_page", "product_page_generated",
   "comparison_page", "product_b_data", "comparison_generated",
   "files_created", "output_directory", "json_output_complete", "errors"]

/-- A node's partial state update: only the keys the dictionary it
returns actually carries. -/
structure PartialUpdate where
  parsed_product : Option PDict := none
  product : Option Product := none
  data_parsed : Option Bool := none
  content_blocks : Option ContentBlocks := none
  content_blocks_generated : Option Bool := none
  questions : Option (List QA) := none
  questions_generated : Option Bool := none
  question_count : Option Nat := none
  categories : Option (List String) := none
  faq_page : Option (Option FAQPage) := none
  faq_generated : Option Bool := none
  product_page : Option DescriptionPage := none
  product_page_generated : Option Bool := none
  comparison_page : Option ComparisonPage := none
  product_b_data : Option PDict := none
  comparison_generated : Option Bool := none
  files_created : Option (List (String × String)) := none
  output_directory : Option String := none
  json_output_complete : Option Bool := none
  errors : Option (List String) := none
  deriving DecidableEq, Repr

/-- The empty update (a node returning no recognised keys). -/
def emptyUpdate : PartialUpdate := {}

/-- LangGraph merge of one node's returned dictionary into the shared
state: every ProductState channel is declared without a reducer, so a
key present in the update replaces the stored value and a key absent
leaves it unchanged. -/
def applyUpdate (s : ProductState) (u : PartialUpdate) : ProductState :=
  { raw_product_data := s.raw_product_data
    parsed_product := match u.parsed_product with | some p => some p | none => s.parsed_product
    product := match u.product with | some p => some p | none => s.product
    data_parsed := optD u.data_parsed s.data_parsed
    content_blocks := match u.content_blocks with | some c => some c | none => s.content_blocks
    content_blocks_generated := optD u.content_blocks_generated s.content_blocks_generated
    questions := match u.questions with | some q => some q | none => s.questions
    questions_generated := optD u.questions_generated s.questions_generated
    question_count := optD u.question_count s.question_count
    categories := match u.categories with | some c => some c | none => s.categories
    faq_page := optD u.faq_page s.faq_page
    faq_generated := optD u.faq_generated s.faq_generated
    product_page := match u.product_page with | some p => some p | none => s.product_page
    product_page_generated := optD u.product_page_generated s.product_page_generated
    comparison_page := match u.comparison_page with | some p => some p | none => s.comparison_page
    product_b_data := match u.product_b_data with | some p => some p | none => s.product_b_data
    comparison_generated := optD u.comparison_generated s.comparison_generated
    files_created := match u.files_created with | some f => some f | none => s.files_created
    output_directory := match u.output_directory with | some o => some o | none => s.output_directory
    json_output_complete := optD u.json_output_complete s.json_output_complete
    errors := optD u.errors s.errors }

/-- The initial state literal of ProductContentWorkflow.run. -/
def initialState (product_data : PDict) : ProductState :=
  { raw_product_data := some product_data
    parsed_product := none, product := none, data_parsed := false
    content_blocks := none, content_blocks_generated := false
    questions := none, questions_generated := false, question_count := 0
    categories := none
    faq_page := none, faq_generated := false
    product_page := none, product_page_generated := false
    comparison_page := none, product_b_data := none, comparison_generated := false
    files_created := none, output_directory := none, json_output_complete := false
    errors := [] }

/-! ## Agent process methods as node transforms -/

/-- DataParserAgent.process: falsy input yields a single-error update;
otherwise parse_product_data runs and any raise propagates out of the
node uncaught. -/
def dataParserProcess (state : ProductState) (backend : BackendParser) :
    Except String PartialUpdate :=
  let raw := optD state.raw_product_data []
  if raw.isEmpty then
    Except.ok { emptyUpdate with errors := some ["No product data provided"] }
  else
    match (parse_product_data raw backend).result with
    | Except.error e => Except.error e
    | Except.ok p =>
      Except.ok { emptyUpdate with
        parsed_product := some (productToDict p)
        product := some p
        data_parsed := some true }

/-- ComparisonGeneratorAgent.process: falsy input yields a single-error
update; otherwise generate_fictional_product_b runs with no surrounding
try/except, so any raise propagates out of the node uncaught. -/
def comparisonProcess (state : ProductState) (backend : BackendB) :
    Except String PartialUpdate :=
  let product_a_data := optD state.parsed_product []
  if product_a_data.isEmpty then
    Except.ok { emptyUpdate with
      errors := some ["Missing product data for comparison generation"] }
  else
    match (generate_fictional_product_b backend).result with
    | Except.error e => Except.error e
    | Except.ok product_b_data =>
      match generate_comparison_page product_a_data product_b_data with
      | Except.error e => Except.error e
      | Except.ok page =>
        match page with
        | PageResult.comparisonPage p =>
          Except.ok { emptyUpdate with
            comparison_page := some p
            product_b_data := some product_b_data
            comparison_generated := some true }
        | _ => Except.error "unexpected template result"

/-! ## workflow/product_workflow.py: the stage graph and its writers -/

/-- The workflow graph value assembled by
ProductContentWorkflow.build_workflow: named nodes, directed edges and
the entry point.  StateGraph records exactly this data; it performs no
write-set declaration and no single-writer validation. -/
structure WorkflowGraph where
  nodes : List String
  edges : List (String × String)
  entry : String
  deriving DecidableEq, Repr

/-- The graph built in src/workflow/product_workflow.py (END rendered as
a distinguished sink name). -/
def build_workflow : WorkflowGraph :=
  { nodes := ["data_parser", "content_blocks", "question_generator", "faq_generator",
              "product_page_generator", "comparison_generator", "json_output"]
    edges := [("data_parser", "content_blocks"),
              ("data_parser", "question_generator"),
              ("content_blocks", "faq_generator"),
              ("content_blocks", "product_page_generator"),
              ("question_generator", "faq_generator"),
              ("content_blocks", "comparison_generator"),
              ("faq_generator", "json_output"),
              ("product_page_generator", "json_output"),
              ("comparison_generator", "json_output"),
              ("json_output", "END")]
    entry := "data_parser" }

/-- The state keys each node's process method can return, as the union
over its return statements in the corresponding agent source file. -/
def stageWrites (stage : String) : List String :=
  if stage = "data_parser" then
    ["errors", "parsed_product", "product", "data_parsed"]
  else if stage = "content_blocks" then
    ["errors", "content_blocks", "content_blocks_generated"]
  else if stage = "question_generator" then
    ["errors", "questions", "questions_generated", "question_count", "categories"]
  else if stage = "faq_generator" then
    ["errors", "faq_page", "faq_generated"]
  else if stage = "product_page_generator" then
    ["errors", "product_page", "product_page_generated"]
  else if stage = "comparison_generator" then
    ["errors", "comparison_page", "product_b_data", "comparison_generated"]
  else if stage = "json_output" then
    ["errors", "files_created", "output_directory", "all_pages_generated",
     "json_output_complete"]
  else []

/-- The stages of the built graph whose write set contains the key. -/
def writersOf (g : WorkflowGraph) (key : String) : List String :=
  g.nodes.filter (fun n => decide (key ∈ stageWrites n))

/-- All keys written by some stage of the built graph. -/
def allWrittenKeys : List String :=
  (build_workflow.nodes.map stageWrites).flatten.dedup

/-! ## Claim C2: ingredient comparison -/

/-- Claim C2 counterexample: on the spec scenario A = B,C and B = C,D the
common and unique sets are as claimed, but compare_ingredients returns a
similarity_score of 50 (a percentage), not the claimed ratio 1/2. -/
theorem claim2_counterexample :
    (compare_ingredients ["B", "C"] ["C", "D"]).common_ingredients = ["C"] ∧
    (compare_ingredients ["B", "C"] ["C", "D"]).unique_to_product1 = ["B"] ∧
    (compare_ingredients ["B", "C"] ["C", "D"]).unique_to_product2 = ["D"] ∧
    (compare_ingredients ["B", "C"] ["C", "D"]).similarity_score = 50 ∧
    (compare_ingredients ["B", "C"] ["C", "D"]).similarity_score ≠ 1 / 2 := by
  have h : (["B", "C"].dedup.filter (fun x => decide (x ∈ ["C", "D"]))).length = 1 := by
    decide
  refine ⟨by decide, by decide, by decide, ?_, ?_⟩ <;>
    · simp only [compare_ingredients, h]
      norm_num

/-- Claim C2 amended: for all ingredient lists A and B the comparison
returns exactly the intersection, the two set differences, and the
percentage similarity score 100 times the size of the intersection
divided by the larger of the two list lengths (or 1 when both are
empty); on the spec scenario the score is therefore 50, not 1/2. -/
theorem claim2_amended (A B : List String) :
    (compare_ingredients A B).common_ingredients.toFinset = A.toFinset ∩ B.toFinset ∧
    (compare_ingredients A B).unique_to_product1.toFinset = A.toFinset \ B.toFinset ∧
    (compare_ingredients A B).unique_to_product2.toFinset = B.toFinset \ A.toFinset ∧
    (compare_ingredients A B).common_ingredients.length = (A.toFinset ∩ B.toFinset).card ∧
    (compare_ingredients A B).similarity_score =
      ((A.toFinset ∩ B.toFinset).card : ℚ) / ((max (max A.length B.length) 1 : Nat) : ℚ) * 100 := by
  have h1 : (compare_ingredients A B).common_ingredients.toFinset = A.toFinset ∩ B.toFinset := by
    ext a
    simp [compare_ingredients, List.mem_toFinset, List.mem_filter, List.mem_dedup]
  have hnd : (compare_ingredients A B).common_ingredients.Nodup := by
    simp only [compare_ingredients]
    exact (List.nodup_dedup A).filter _
  have h4 : (compare_ingredients A B).common_ingredients.length
      = (A.toFinset ∩ B.toFinset).card := by
    rw [← h1, List.toFinset_card_of_nodup hnd]
  refine ⟨h1, ?_, ?_, h4, ?_⟩
  · ext a
    simp [compare_ingredients, Finset.mem_sdiff, List.mem_toFinset, List.mem_filter,
      List.mem_dedup]
  · ext a
    simp [compare_ingredients, Finset.mem_sdiff, List.mem_toFinset, List.mem_filter,
      List.mem_dedup]
  · have h4l : (A.dedup.filter (fun x => decide (x ∈ B))).length
        = (A.toFinset ∩ B.toFinset).card := by
      simpa [compare_ingredients] using h4
    simp only [compare_ingredients]
    rw [h4l]

/-! ## Claim C3: currency delta -/

/-- Claim C3: the price-difference helper extracts the first digit run of
each comma-stripped price string; when both extractions succeed it
returns the marked absolute difference (699 vs 799 gives 100), and when
either fails it returns the empty-string unknown marker, which is
neither a zero nor a marked zero amount. -/
theorem claim3_currency_delta :
    (∀ s1 s2 n1 n2, extractFirstNumber s1 = some n1 → extractFirstNumber s2 = some n2 →
      calculatePriceDifference s1 s2 = rupeeMark ++ toString (max n1 n2 - min n1 n2)) ∧
    (∀ s1 s2, extractFirstNumber s1 = none ∨ extractFirstNumber s2 = none →
      calculatePriceDifference s1 s2 = "") ∧
    extractFirstNumber "₹699" = some 699 ∧
    extractFirstNumber "₹799" = some 799 ∧
    calculatePriceDifference "₹699" "₹799" = rupeeMark ++ toString 100 ∧
    extractFirstNumber (calculatePriceDifference "₹699" "₹799") = some 100 ∧
    extractFirstNumber "contact us" = none ∧
    calculatePriceDifference "₹699" "contact us" = "" ∧
    ("" : String) ≠ "0" ∧ ("" : String) ≠ rupeeMark ++ toString 0 := by
  refine ⟨?_, ?_, by decide, by decide, by decide, by decide, by decide, by decide,
    by decide, by decide⟩
  · intro s1 s2 n1 n2 h1 h2
    simp [calculatePriceDifference, h1, h2]
  · intro s1 s2 h
    rcases h with h | h
    · simp [calculatePriceDifference, h]
    · unfold calculatePriceDifference
      rw [h]
      cases extractFirstNumber s1 <;> rfl

/-- Claim C3 witness: the success branch applied at the spec scenario. -/
theorem claim3_witness :
    calculatePriceDifference "₹699" "₹799" = rupeeMark ++ toString (max 699 799 - min 699 799) :=
  claim3_currency_delta.1 "₹699" "₹799" 699 799 (by decide) (by decide)

/-! ## Claim C7: category inference cascade -/

/-- A list all of whose entries fail a test is exactly a list on which
the test never succeeds. -/
theorem all_not_eq_not_any (p : String → Bool) (l : List String) :
    (l.all fun w => !p w) = !(l.any p) := by
  induction l with
  | nil => rfl
  | cons a t ih => simp [List.all_cons, List.any_cons, ih, Bool.not_or]

/-- Claim C7: categorize_question and the FAQ template inference are the
ordered keyword cascade over their fixed keyword sets in the priority
order safety, usage, purchase, comparison; an item with no truthy
category gets the cascade of its question text, and the Informational
baseline is assigned exactly when no keyword of any set matches. -/
theorem claim7_category_cascade :
    (∀ q pd, categorize_question q pd =
      keywordCascade
        [(safetyKeywords, "Safety"), (usageKeywords, "Usage"),
         (purchaseKeywords, "Purchase"), (comparisonKeywords, "Comparison")]
        "Informational" (lowerStr q)) ∧
    (∀ q, faqInferCategory q =
      keywordCascade
        [(faqSafetyKeywords, "Safety"), (faqUsageKeywords, "Usage"),
         (faqPurchaseKeywords, "Purchase"), (faqComparisonKeywords, "Comparison")]
        "Informational" (lowerStr q)) ∧
    (∀ qa, (faqItemOfQA qa).category =
      if truthyStr qa.category then optD qa.category ""
      else keywordCascade
        [(faqSafetyKeywords, "Safety"), (faqUsageKeywords, "Usage"),
         (faqPurchaseKeywords, "Purchase"), (faqComparisonKeywords, "Comparison")]
        "Informational" (lowerStr (optD qa.question ""))) ∧
    (∀ q pd, categorize_question q pd = "Informational" ↔
      ((safetyKeywords ++ usageKeywords ++ purchaseKeywords ++ comparisonKeywords).all
        fun w => !containsSub (lowerStr q) w) = true) := by
  refine ⟨fun q pd => rfl, fun q => rfl, fun qa => rfl, ?_⟩
  intro q pd
  rw [all_not_eq_not_any]
  simp only [categorize_question, List.any_append]
  split_ifs with h1 h2 h3 h4 <;>
    simp_all [Bool.not_eq_true, Bool.or_eq_true]

/-! ## Claim C8: composition determinism -/

/-- Claim C8: the composition engine is a pure function of the template
name, the data record, and the content blocks: two calls on equal inputs
return equal documents (the Python code mutates neither argument and
reads no other state, which the functional embedding renders as plain
application). -/
theorem claim8_composition_deterministic
    (n1 n2 : String) (d1 d2 : TemplateData) (c1 c2 : ContentBlocks)
    (hn : n1 = n2) (hd : d1 = d2) (hc : c1 = c2) :
    apply_template n1 d1 c1 = apply_template n2 d2 c2 := by
  subst hn
  subst hd
  subst hc
  rfl

/-- Claim C8 witness: two identical comparison-template calls on a
concrete data record agree. -/
theorem claim8_witness :
    apply_template "comparison"
      { questions := none, product_data := none, benefits_content := none
        usage_content := none, ingredients_content := none, safety_content := none
        product1_data := some emptyProductDict, product2_data := some emptyProductDict }
      emptyContentBlocks
    = apply_template "comparison"
      { questions := none, product_data := none, benefits_content := none
        usage_content := none, ingredients_content := none, safety_content := none
        product1_data := some emptyProductDict, product2_data := some emptyProductDict }
      emptyContentBlocks :=
  claim8_composition_deterministic "comparison" "comparison" _ _ _ _ rfl rfl rfl

/-! ## Claim C9: output discriminators and completion flags -/

/-- Claim C9 counterexample: the description template stamps its page
with the discriminator product_description, which is not among the three
claimed values, and the state schema has no data_parser_generated or
json_output_generated flag (those stages use data_parsed and
json_output_complete). -/
theorem claim9_counterexample :
    (ProductDescriptionTemplate_apply emptyProductDict emptyContentBlocks).page_type
      = "product_description" ∧
    "product_description" ∉ ["faq", "description", "comparison"] ∧
    "data_parser_generated" ∉ productStateKeys ∧
    "json_output_generated" ∉ productStateKeys := by
  exact ⟨rfl, by decide, by decide, by decide⟩

/-- Claim C9 amended: every produced document carries a page_type
discriminator, with values faq, product_description and comparison, and
the state schema carries the errors slot plus one boolean completion
flag per stage, named data_parsed, content_blocks_generated,
questions_generated, faq_generated, product_page_generated,
comparison_generated and json_output_complete. -/
theorem claim9_amended :
    (∀ qs pd, (FAQTemplate_apply qs pd).page_type = "faq") ∧
    (∀ pd cb, (ProductDescriptionTemplate_apply pd cb).page_type = "product_description") ∧
    (∀ p1 p2 cb, (ComparisonTemplate_apply p1 p2 cb).page_type = "comparison") ∧
    "errors" ∈ productStateKeys ∧
    (["data_parsed", "content_blocks_generated", "questions_generated", "faq_generated",
      "product_page_generated", "comparison_generated", "json_output_complete"].all
      fun k => decide (k ∈ productStateKeys)) = true := by
  exact ⟨fun qs pd => rfl, fun pd cb => rfl, fun p1 p2 cb => rfl, by decide, by decide⟩

/-! ## Claim C10: FAQ page shape -/

/-- The FAQ inference always lands in the five fixed categories. -/
theorem faqInferCategory_mem (q : String) :
    faqInferCategory q ∈ ["Informational", "Safety", "Usage", "Purchase", "Comparison"] := by
  unfold faqInferCategory
  dsimp only
  split_ifs <;> simp

/-- Claim C10 counterexample: a question arriving with the explicit
category Weird is kept verbatim by the FAQ template, so the produced
item's category lies outside the fixed five-category set. -/
theorem claim10_counterexample :
    ((FAQTemplate_apply [{ question := some "Will it clog pores?", answer := some "No."
                           category := some "Weird" }] emptyProductDict).faq_items.map
      fun i => i.category) = ["Weird"] ∧
    "Weird" ∉ ["Informational", "Safety", "Usage", "Purchase", "Comparison"] := by
  exact ⟨by decide, by decide⟩

/-- Claim C10 amended: the FAQ page holds at most 5 items,
total_questions equals the item count, and every item's category is
non-empty, being the question's own category whenever one was provided
truthy and a value from the fixed five-category set otherwise. -/
theorem claim10_amended (questions : List QA) (product_data : ProductDict) :
    (FAQTemplate_apply questions product_data).faq_items.length ≤ 5 ∧
    (FAQTemplate_apply questions product_data).total_questions
      = (FAQTemplate_apply questions product_data).faq_items.length ∧
    ∀ item ∈ (FAQTemplate_apply questions product_data).faq_items,
      item.category ≠ "" ∧
      (item.category ∈ ["Informational", "Safety", "Usage", "Purchase", "Comparison"] ∨
        some item.category ∈ questions.map fun qa => qa.category) := by
  refine ⟨?_, rfl, ?_⟩
  · simp only [FAQTemplate_apply, List.length_map]
    exact le_trans (List.length_take_le 5 questions) (le_refl 5)
  · intro item hitem
    simp only [FAQTemplate_apply, List.mem_map] at hitem
    obtain ⟨qa, hqa, hi⟩ := hitem
    have hqamem : qa ∈ questions := List.take_subset 5 questions hqa
    subst hi
    unfold faqItemOfQA
    by_cases h : truthyStr qa.category = true
    · simp only [h, if_true]
      cases hc : qa.category with
      | none => rw [hc] at h; exact absurd h (by decide)
      | some c =>
        rw [hc] at h
        have hcne : c ≠ "" := by
          simpa [truthyStr] using h
        constructor
        · simpa [optD, hc] using hcne
        · right
          rw [List.mem_map]
          exact ⟨qa, hqamem, by simp [optD, hc]⟩
    · rw [Bool.not_eq_true] at h
      simp only [h, Bool.false_eq_true, if_false]
      refine ⟨?_, Or.inl (faqInferCategory_mem _)⟩
      have := faqInferCategory_mem (optD qa.question "")
      intro hcontra
      rw [hcontra] at this
      revert this
      decide

/-- Claim C10 witness: the amended page-shape facts evaluated on a
one-question list whose question carries no category. -/
theorem claim10_witness :
    (FAQTemplate_apply [{ question := some "Is it safe?", answer := some "Yes."
                          category := none }] emptyProductDict).faq_items.length ≤ 5 ∧
    ({ question := "Is it safe?", answer := "Yes.", category := "Safety" } : FAQItem).category
        ≠ "" ∧
    (({ question := "Is it safe?", answer := "Yes.", category := "Safety" } : FAQItem).category
        ∈ ["Informational", "Safety", "Usage", "Purchase", "Comparison"] ∨
      some ({ question := "Is it safe?", answer := "Yes.", category := "Safety" }
          : FAQItem).category
        ∈ ([{ question := some "Is it safe?", answer := some "Yes.", category := none }]
            : List QA).map fun qa => qa.category) := by
  have h := claim10_amended
    [{ question := some "Is it safe?", answer := some "Yes.", category := none }]
    emptyProductDict
  refine ⟨h.1, ?_, ?_⟩
  · exact (h.2.2 { question := "Is it safe?", answer := "Yes.", category := "Safety" }
      (by decide)).1
  · exact (h.2.2 { question := "Is it safe?", answer := "Yes.", category := "Safety" }
      (by decide)).2

/-! ## Dictionary lemmas for the extraction flows -/

/-- Key presence unfolded to an existence statement. -/
theorem pHasKey_iff (d : PDict) (f : String) :
    pHasKey d f = true ↔ ∃ kv ∈ d, kv.1 = f := by
  simp [pHasKey, pLookup, List.find?_isSome]

/-- Assignment preserves every present key and adds the assigned one. -/
theorem pHasKey_pSet (d : PDict) (k : String) (v : FieldVal) (f : String) :
    pHasKey (pSet d k v) f = true ↔ (f = k ∨ pHasKey d f = true) := by
  unfold pSet
  by_cases hk : pHasKey d k
  · rw [if_pos hk]
    have hmap : ∀ kv ∈ d, ((fun kv : String × FieldVal =>
        if kv.1 == k then (k, v) else kv) kv).1 = kv.1 := by
      intro kv _
      by_cases h : kv.1 == k
      · simp only [h, if_pos]
        exact (eq_of_beq h).symm
      · dsimp only
        rw [if_neg h]
    constructor
    · intro h
      rw [pHasKey_iff] at h
      obtain ⟨kv, hkv, hfst⟩ := h
      rw [List.mem_map] at hkv
      obtain ⟨kv0, hkv0, hmapeq⟩ := hkv
      right
      rw [pHasKey_iff]
      refine ⟨kv0, hkv0, ?_⟩
      rw [← hfst, ← hmapeq]
      exact (hmap kv0 hkv0).symm
    · intro h
      have hd : pHasKey d f = true := by
        rcases h with h | h
        · rw [h]; exact hk
        · exact h
      rw [pHasKey_iff] at hd ⊢
      obtain ⟨kv, hkv, hfst⟩ := hd
      exact ⟨_, List.mem_map_of_mem _ hkv, by rw [hmap kv hkv]; exact hfst⟩
  · rw [if_neg hk]
    rw [pHasKey_iff, pHasKey_iff]
    simp only [List.mem_append, List.mem_singleton]
    constructor
    · rintro ⟨kv, hkv | hkv, hfst⟩
      · exact Or.inr ⟨kv, hkv, hfst⟩
      · subst hkv; exact Or.inl hfst.symm
    · rintro (h | ⟨kv, hkv, hfst⟩)
      · exact ⟨(k, v), Or.inr rfl, h.symm⟩
      · exact ⟨kv, Or.inl hkv, hfst⟩

/-- The coercion step never drops a present key. -/
theorem pHasKey_coerceListField (d : PDict) (k : String) (f : String)
    (h : pHasKey d f = true) : pHasKey (coerceListField d k) f = true := by
  unfold coerceListField
  cases hv : pLookup d k with
  | none =>
    dsimp only
    exact (pHasKey_pSet d k (FieldVal.list []) f).mpr (Or.inr h)
  | some w =>
    cases w with
    | str s =>
      dsimp only
      by_cases hs : (s != "") = true
      · rw [if_pos hs]
        exact (pHasKey_pSet d k (FieldVal.list [s]) f).mpr (Or.inr h)
      · rw [if_neg hs]
        exact (pHasKey_pSet d k (FieldVal.list []) f).mpr (Or.inr h)
    | list xs => exact h
    | null =>
      dsimp only
      exact (pHasKey_pSet d k (FieldVal.list []) f).mpr (Or.inr h)

/-- When no required field is missing, the tool validation succeeds. -/
theorem validProduct_of_find_none (pb : PDict)
    (h : requiredProductFields.find? (fun f => !(pHasKey pb f)) = none) :
    (validate_product_structure pb).valid = true := by
  have hall := List.find?_eq_none.mp h
  unfold validate_product_structure
  have hnil : requiredProductFields.filter (fun f => !(pHasKey pb f)) = [] := by
    rw [List.filter_eq_nil_iff]
    intro a ha
    exact hall a ha
  simp [hnil]

/-- The required-field tail of the product-B flow leaves the attempt and
repair counters unchanged: the critical-fields fix branch is dead code,
because reaching it requires every required field to be present, which
already makes the tool validation succeed. -/
theorem genBFinish_counters (pb : PDict) (a r : Nat) (fixO : Option PDict) :
    (genBFinish pb a r fixO).parseAttempts = a ∧ (genBFinish pb a r fixO).repairCalls = r := by
  unfold genBFinish
  cases hf : requiredProductFields.find? (fun f => !(pHasKey pb f)) with
  | some f => exact ⟨rfl, rfl⟩
  | none =>
    have hv : (validate_product_structure pb).valid = true := validProduct_of_find_none pb hf
    simp only [hv, Bool.not_true, Bool.false_and, Bool.false_eq_true, if_false]
    split <;> exact ⟨rfl, rfl⟩

/-! ## Claim C4: bounded repair -/

/-- Claim C4: both extraction flows issue at most one repair call and
parse at most two backend responses; when the initial parse and the
single repair parse both fail, the flow terminates in an explicit error
after exactly one repair call instead of calling the backend again. -/
theorem claim4_bounded_repair :
    (∀ backend : BackendB,
      (generate_fictional_product_b backend).repairCalls ≤ 1 ∧
      (generate_fictional_product_b backend).parseAttempts ≤ 2) ∧
    (∀ backend : BackendB, backend.firstParse = none → backend.retryParse = none →
      (generate_fictional_product_b backend).result = Except.error "json.loads: invalid JSON" ∧
      (generate_fictional_product_b backend).repairCalls = 1) ∧
    (∀ (raw : PDict) (backend : BackendParser),
      (parse_product_data raw backend).repairCalls ≤ 1 ∧
      (parse_product_data raw backend).parseAttempts ≤ 2) ∧
    (∀ (raw : PDict) (backend : BackendParser),
      (validate_data_structure raw requiredProductFields).valid = false →
      backend.llmParse = none → backend.fixParse = none →
      (parse_product_data raw backend).result = Except.error "json.loads: invalid JSON" ∧
      (parse_product_data raw backend).repairCalls = 1) := by
  refine ⟨?_, ?_, ?_, ?_⟩
  · intro backend
    unfold generate_fictional_product_b
    cases hb : backend.firstParse with
    | some pb =>
      have h := genBFinish_counters pb 1 0 backend.fixParse
      rw [h.1, h.2]
      exact ⟨by norm_num, by norm_num⟩
    | none =>
      cases hr : backend.retryParse with
      | none => exact ⟨le_refl 1, le_refl 2⟩
      | some pb =>
        have h := genBFinish_counters pb 2 1 backend.fixParse
        rw [h.1, h.2]
        exact ⟨le_refl 1, le_refl 2⟩
  · intro backend h1 h2
    unfold generate_fictional_product_b
    rw [h1, h2]
    exact ⟨rfl, rfl⟩
  · intro raw backend
    unfold parse_product_data
    dsimp only
    split
    · split
      · exact ⟨by norm_num, by norm_num⟩
      · split
        · split
          · exact ⟨by norm_num, by norm_num⟩
          · split
            · split <;> exact ⟨le_refl 1, le_refl 2⟩
            · exact ⟨le_refl 1, le_refl 2⟩
        · split
          · split <;> exact ⟨le_refl 1, le_refl 2⟩
          · exact ⟨le_refl 1, le_refl 2⟩
    · split
      · split
        · exact ⟨by norm_num, by norm_num⟩
        · split
          · split <;> exact ⟨le_refl 1, le_refl 2⟩
          · exact ⟨le_refl 1, le_refl 2⟩
      · split
        · split <;> exact ⟨le_refl 1, le_refl 2⟩
        · exact ⟨le_refl 1, le_refl 2⟩
  · intro raw backend hval hllm hfix
    unfold parse_product_data
    rw [hllm, hfix]
    dsimp only
    rw [hval]
    exact ⟨rfl, rfl⟩

/-- Claim C4 witness: on a backend whose responses never parse, both
flows stop after the single repair round with an explicit failure. -/
theorem claim4_witness :
    (generate_fictional_product_b { firstParse := none, retryParse := none
                                    fixParse := none }).result
      = Except.error "json.loads: invalid JSON" ∧
    (generate_fictional_product_b { firstParse := none, retryParse := none
                                    fixParse := none }).repairCalls = 1 ∧
    (parse_product_data [] { llmParse := none, fixParse := none }).result
      = Except.error "json.loads: invalid JSON" := by
  have hb := claim4_bounded_repair.2.1
    { firstParse := none, retryParse := none, fixParse := none } rfl rfl
  have hp := claim4_bounded_repair.2.2.2 [] { llmParse := none, fixParse := none }
    (by decide) rfl rfl
  exact ⟨hb.1, hb.2, hp.1⟩

/-! ## Claim C1: partial failure of the comparison stage -/

/-- Claim C1 counterexample: with the input slot present, a backend
response that parses to an object missing the required fields makes
generate_fictional_product_b raise ValueError; the process method wraps
it in no try/except, so the node errors out instead of returning a
result object with a single comparison error record. -/
theorem claim1_counterexample :
    comparisonProcess
      { initialState [] with
        parsed_product := some [("product_name", FieldVal.str "GlowBoost Vitamin C Serum")] }
      { firstParse := some [], retryParse := none, fixParse := none }
    = Except.error "Missing required field in Product B: product_name" := rfl

/-- Claim C1 amended: the comparison stage returns a best-effort update
with one error record only when its input slot is missing; when the
fictional-product flow fails irrecoverably, its exception propagates out
of the stage uncaught and the run does not return a result object with
a comparison error record. -/
theorem claim1_amended (state : ProductState) (backend : BackendB) :
    ((optD state.parsed_product []).isEmpty = true →
      comparisonProcess state backend = Except.ok
        { emptyUpdate with errors := some ["Missing product data for comparison generation"] }) ∧
    (∀ e, (optD state.parsed_product []).isEmpty = false →
      (generate_fictional_product_b backend).result = Except.error e →
      comparisonProcess state backend = Except.error e) := by
  constructor
  · intro h
    simp [comparisonProcess, h]
  · intro e h hg
    simp [comparisonProcess, h, hg]

/-- Claim C1 witness: the amended propagation fact evaluated on a state
with a present input slot and a backend that never returns valid
JSON. -/
theorem claim1_witness :
    comparisonProcess
      { initialState [] with parsed_product := some [("product_name", FieldVal.str "X")] }
      { firstParse := none, retryParse := none, fixParse := none }
    = Except.error "json.loads: invalid JSON" :=
  (claim1_amended
    { initialState [] with parsed_product := some [("product_name", FieldVal.str "X")] }
    { firstParse := none, retryParse := none, fixParse := none }).2
    "json.loads: invalid JSON" rfl rfl

/-! ## Claim C5: single-writer slots -/

/-- Claim C5 counterexample: the errors key is written by all seven
stages of the built graph, and the graph is still constructed (the
builder performs no single-writer check), so a multi-writer key is not a
construction-time failure. -/
theorem claim5_counterexample :
    writersOf build_workflow "errors" = build_workflow.nodes ∧
    (writersOf build_workflow "errors").length = 7 ∧
    ¬((writersOf build_workflow "errors").length ≤ 1) := by
  refine ⟨by decide, by decide, by decide⟩

/-- Claim C5 amended: in the built graph every written slot key except
errors has exactly one writer stage; errors has all seven stages as
writers, and no single-writer condition is checked at construction, so
the conflict surfaces (if at all) at runtime rather than as a
construction-time failure. -/
theorem claim5_amended :
    (allWrittenKeys.filter fun k => decide (2 ≤ (writersOf build_workflow k).length))
      = ["errors"] ∧
    (allWrittenKeys.all fun k =>
      (k == "errors") || ((writersOf build_workflow k).length == 1)) = true ∧
    (writersOf build_workflow "errors").length = 7 := by
  refine ⟨by decide, by decide, by decide⟩

/-! ## Claim C6: error accumulation -/

/-- Claim C6 counterexample: the errors channel has no reducer, so a
later stage's merge replaces the list; after the data parser records an
error on empty input and the comparison stage then records its own
missing-input error, the first record is gone from the merged state. -/
theorem claim6_counterexample :
    dataParserProcess (initialState []) { llmParse := none, fixParse := none } =
      Except.ok { emptyUpdate with errors := some ["No product data provided"] } ∧
    comparisonProcess
        (applyUpdate (initialState [])
          { emptyUpdate with errors := some ["No product data provided"] })
        { firstParse := none, retryParse := none, fixParse := none } =
      Except.ok
        { emptyUpdate with errors := some ["Missing product data for comparison generation"] } ∧
    (applyUpdate
        (applyUpdate (initialState [])
          { emptyUpdate with errors := some ["No product data provided"] })
        { emptyUpdate with errors := some ["Missing product data for comparison generation"] }).errors
      = ["Missing product data for comparison generation"] ∧
    "No product data provided" ∉
      (applyUpdate
        (applyUpdate (initialState [])
          { emptyUpdate with errors := some ["No product data provided"] })
        { emptyUpdate with errors := some ["Missing product data for comparison generation"] }).errors := by
  refine ⟨rfl, rfl, rfl, by decide⟩

/-- Claim C6 amended: merging a stage update into the state replaces the
errors slot with the update's own list whenever the update carries one
(last-writer-wins), and leaves it unchanged otherwise; the slot is not
append-only across stages. -/
theorem claim6_amended (s : ProductState) (u : PartialUpdate) :
    (∀ l, u.errors = some l → (applyUpdate s u).errors = l) ∧
    (u.errors = none → (applyUpdate s u).errors = s.errors) := by
  constructor
  · intro l h
    simp [applyUpdate, optD, h]
  · intro h
    simp [applyUpdate, optD, h]

/-- Claim C6 witness: the replacement semantics evaluated on the initial
state and a one-record update. -/
theorem claim6_witness :
    (applyUpdate (initialState []) { emptyUpdate with errors := some ["boom"] }).errors
      = ["boom"] :=
  (claim6_amended (initialState []) { emptyUpdate with errors := some ["boom"] }).1
    ["boom"] rfl

end ProductPipeline
